import Mathlib

/-!
Verification development for the dapsenv build daemon
(`source/dapsenv/actions/daemon.py`).

The Python module is shallowly embedded below.  Python dictionaries that act
as records (`job`, `project`, build results) become Lean structures; a
dictionary key that may be absent becomes an `Option` field; Python `int`
values become `Int` (arbitrary precision, no overflow); fallible code returns
`Except`/`Option`.  The concurrent daemon (`_jobManager`, `_prepare_build_task`
enqueues, worker completion in `_process`) is modelled as a small-step
transition relation on the shared `_daemon_info` state; blocks executed while
`_daemon_info_lock` is held become single atomic transitions, and the
job-manager thread's loop-local variables (its `jobs` snapshot, loop index and
local `running_builds` copy) live in an explicit scheduler context, since the
lock is released between consecutive promotions of one tick.

External collaborators (docker containers, git repositories, the IRC bot,
`configmanager`, constants from `dapsenv.general`) are not part of the source
under verification; they enter as parameters, and container/filesystem/IRC
side effects of a build worker are reified into an `Effect` list.
-/

namespace Dapsenv

/-- One project entry of `self.projects` as used by `daemon.py`: plain data
fields of the project dictionary (the `repo` collaborator object is external
and carries no state that `daemon.py` reads besides these fields). -/
structure ProjectInfo where
  project : String
  vcs_branch : String
  vcs_lastrev : String
  vcs_repodir : String
  dc_files : List String
  irc_notifications : List String
  deriving DecidableEq, Repr

/-- A job dictionary as appended by `_prepare_build_task` and mutated by
`_jobManager` / `_process`.  `status` is the Python int `0` (queued) or `1`
(running).  `time_started` is `none` while the `"time_started"` key is absent
from the dictionary (it is only assigned on promotion in `_jobManager`). -/
structure Job where
  project : ProjectInfo
  dc_file : String
  commit : String
  status : Int
  container_id : String
  time_started : Option Int
  deriving DecidableEq, Repr

/-- The dictionary literal appended in `_prepare_build_task` (lines 311-317):
`{"project": deepcopy(project), "dc_file": dc_file, "commit": commit,
"status": 0, "container_id": ""}` - note the absent `"time_started"` key. -/
def mkJob (p : ProjectInfo) (dc commit : String) : Job :=
  { project := p, dc_file := dc, commit := commit, status := 0,
    container_id := "", time_started := none }

/-- Number of jobs whose `status` field is `1` (Running). -/
def countRunning (jobs : List Job) : Nat :=
  (jobs.filter (fun j => j.status == 1)).length

/-- Number of jobs whose `status` field is `0` (Queued). -/
def countQueued (jobs : List Job) : Nat :=
  (jobs.filter (fun j => j.status == 0)).length

/-! ### Deterministic archive naming (`_process`, line 382)

`"{}_{}_{}.tar.gz".format(int(time.time()), dc_file[3:], f.replace("_", "-"))` -/

/-- Python `s[3:]`: drop the first three characters. -/
def pySlice3 (s : String) : String := ⟨s.data.drop 3⟩

/-- Python `s.replace("_", "-")`: since the pattern is a single character,
this is a character-wise map. -/
def replaceUnderscores (s : String) : String :=
  ⟨s.data.map (fun c => if c = '_' then '-' else c)⟩

/-- The success-archive file name computed at `_process` line 382. -/
def buildArchiveName (now : Nat) (dc_file fmt : String) : String :=
  toString now ++ "_" ++ pySlice3 dc_file ++ "_" ++ replaceUnderscores fmt ++ ".tar.gz"

/-! ### The scheduler tick (`_jobManager`, lines 240-278)

Each iteration of the `while True` loop snapshots `running_builds` and the job
list, then walks the snapshot from the front: it stops as soon as the local
running counter reaches `self._max_containers` or the inspected job's status
is not `0`; every job it passes is promoted (status `1`, start time stamped,
`running_builds` incremented, `scheduled_builds` decremented).  `jobManagerTick`
is this loop body run without interference from other threads (the snapshot
then coincides with the shared list; the per-promotion counter updates net to
`+k`/`-k` for `k` promotions). -/

/-- Promotion of one job (lines 269-270): `jobs[idx]["status"] = 1`;
`jobs[idx]["time_started"] = int(time.time())`. -/
def promoteJob (now : Int) (j : Job) : Job :=
  { j with status := 1, time_started := some now }

/-- The `for idx, job in enumerate(jobs)` loop of `_jobManager`, threading the
thread-local `running_builds` copy `r`; returns the transformed job list and
the number of promotions performed. -/
def promoteLoop (maxC now : Int) : List Job → Int → List Job × Nat
  | [], _ => ([], 0)
  | j :: rest, r =>
    if maxC ≤ r then (j :: rest, 0)
    else if j.status = 0 then
      let res := promoteLoop maxC now rest (r + 1)
      (promoteJob now j :: res.1, res.2 + 1)
    else (j :: rest, 0)

/-- One uninterfered iteration of the `_jobManager` loop: the outer
`if running_builds < self._max_containers` guard around the promotion loop,
with the net counter updates. -/
def jobManagerTick (maxC now : Int) (jobs : List Job) (running scheduled : Int) :
    List Job × Int × Int :=
  if running < maxC then
    let res := promoteLoop maxC now jobs running
    (res.1, running + (res.2 : Int), scheduled - (res.2 : Int))
  else (jobs, running, scheduled)

/-- Length of the longest prefix of Queued jobs. -/
def queuedPrefixLen (jobs : List Job) : Nat :=
  (jobs.takeWhile (fun j => j.status == 0)).length

/-- How many jobs one tick promotes: the head-of-line run of Queued jobs,
capped by the free capacity `maxC - running`. -/
def tickLimit (maxC running : Int) (jobs : List Job) : Nat :=
  min (queuedPrefixLen jobs) (maxC - running).toNat

/-! ### Worker completion (`_process`, lines 435-444)

`running_builds -= 1`, then the first job with this worker's `dc_file` and
status `1` is popped (`break` after the first hit); no job is popped when no
entry matches. -/

/-- Pop the first job matching `dc_file == dc and status == 1`. -/
def removeFirstRunning (dc : String) : List Job → List Job
  | [] => []
  | j :: rest =>
    if j.dc_file = dc ∧ j.status = 1 then rest
    else j :: removeFirstRunning dc rest

/-- The whole completion block of `_process` executed under
`_daemon_info_lock`: decrement `running_builds` and pop the first matching
Running job. -/
def finishUpdate (dc : String) (jobs : List Job) (running : Int) : List Job × Int :=
  (removeFirstRunning dc jobs, running - 1)

/-- The container-id recording block of `_process` (lines 334-341): the first
job matching `dc_file == dc and status == 1` gets its `container_id` set. -/
def recordContainer (dc cid : String) : List Job → List Job
  | [] => []
  | j :: rest =>
    if j.dc_file = dc ∧ j.status = 1 then { j with container_id := cid } :: rest
    else j :: recordContainer dc cid rest

/-! ### The daemon as a transition system

The shared state guarded by `_daemon_info_lock` plus, explicitly, the
job-manager thread's loop-local data (`SchedCtx`: the enumerated snapshot it
is still iterating over and its local copy of `running_builds`) and the
multiset of in-flight worker threads identified by the `dc_file` argument each
was started with.  Every transition corresponds to one source block executed
while the lock is held; the lock is released between any two transitions, so
arbitrary thread interleavings are exactly the paths of this relation. -/

/-- Loop-local data of the `_jobManager` thread while it is inside one
iteration of its `while True` body: the not-yet-visited tail of the
`enumerate(jobs)` snapshot (original indices attached) and the thread-local
`running_builds` copy. -/
structure SchedCtx where
  pending : List (Nat × Job)
  localRunning : Int
  deriving DecidableEq, Repr

/-- The daemon state: `_daemon_info` (`jobs`, `running_builds`,
`scheduled_builds`) together with the scheduler thread's loop context (`none`
while it sleeps between iterations) and the in-flight worker threads. -/
structure DaemonInfo where
  jobs : List Job
  running_builds : Int
  scheduled_builds : Int
  sched : Option SchedCtx
  workers : List String
  deriving DecidableEq, Repr

/-- `_preperation` (lines 80-84): `{"jobs": [], "scheduled_builds": 0,
"running_builds": 0}`, no tick in progress, no workers. -/
def initDaemonInfo : DaemonInfo :=
  { jobs := [], running_builds := 0, scheduled_builds := 0,
    sched := none, workers := [] }

/-- Python `jobs[idx]["status"] = 1; jobs[idx]["time_started"] = now` on the
shared list (no effect when `idx` is out of range; the step using this guards
`idx < jobs.length`). -/
def promoteAt (now : Int) : List Job → Nat → List Job
  | [], _ => []
  | j :: rest, 0 => promoteJob now j :: rest
  | j :: rest, n + 1 => j :: promoteAt now rest n

/-- One lock-protected block of `daemon.py`, as a labelled transition.

* `enqueue`: `_prepare_build_task` lines 310-320, one `dc_file` of a changed
  project (the lock is taken separately for each appended job).
* `tickStart`: `_jobManager` lines 243-246, the snapshot read.
* `tickPromote`: lines 254-274, one promotion - the *snapshot* job must be
  Queued and the local counter below `maxC`; the shared list is mutated at the
  snapshot *index*, and a worker thread for the snapshot job's `dc_file` is
  started.
* `tickEnd`: the loop stops - snapshot exhausted, capacity reached (line 251)
  or a non-Queued snapshot job hit (line 276); the thread then sleeps.
* `workerRecord`: `_process` lines 334-341.
* `workerFinish`: `_process` lines 435-444; the worker thread exits.
-/
inductive Step (maxC : Int) : DaemonInfo → DaemonInfo → Prop where
  | enqueue (s : DaemonInfo) (p : ProjectInfo) (dc commit : String) :
      Step maxC s { s with jobs := s.jobs ++ [mkJob p dc commit],
                           scheduled_builds := s.scheduled_builds + 1 }
  | tickStart (s : DaemonInfo) (h : s.sched = none) :
      Step maxC s { s with sched := some ⟨s.jobs.enum, s.running_builds⟩ }
  | tickPromote (s : DaemonInfo) (c : SchedCtx) (idx : Nat) (j : Job)
      (rest : List (Nat × Job)) (now : Int)
      (hc : s.sched = some c) (hp : c.pending = (idx, j) :: rest)
      (hcap : c.localRunning < maxC) (hq : j.status = 0)
      (hidx : idx < s.jobs.length) :
      Step maxC s { s with
        jobs := promoteAt now s.jobs idx,
        running_builds := s.running_builds + 1,
        scheduled_builds := s.scheduled_builds - 1,
        sched := some ⟨rest, c.localRunning + 1⟩,
        workers := s.workers ++ [j.dc_file] }
  | tickEnd (s : DaemonInfo) (c : SchedCtx) (hc : s.sched = some c)
      (h : c.pending = [] ∨ maxC ≤ c.localRunning ∨
           ∃ idx j rest, c.pending = (idx, j) :: rest ∧ j.status ≠ 0) :
      Step maxC s { s with sched := none }
  | workerRecord (s : DaemonInfo) (dc cid : String) (h : dc ∈ s.workers) :
      Step maxC s { s with jobs := recordContainer dc cid s.jobs }
  | workerFinish (s : DaemonInfo) (dc : String) (h : dc ∈ s.workers) :
      Step maxC s { s with
        jobs := (finishUpdate dc s.jobs s.running_builds).1,
        running_builds := (finishUpdate dc s.jobs s.running_builds).2,
        workers := s.workers.erase dc }

/-- States reachable from daemon start under arbitrary interleavings. -/
inductive Reachable (maxC : Int) : DaemonInfo → Prop where
  | init : Reachable maxC initDaemonInfo
  | step {s t : DaemonInfo} : Reachable maxC s → Step maxC s t → Reachable maxC t

/-! ### Status API (`getJobList` lines 457-473, `_api_server_runtime` lines 152-191) -/

/-- The reduced per-job record built by `getJobList` (the duplicated
`"status"` key of the Python dict literal collapses to one field). -/
structure JobView where
  project : String
  branch : String
  dc_file : String
  status : Int
  commit : String
  time_started : Int
  deriving DecidableEq, Repr

/-- `getJobList`: one view per job, in order.  `job["time_started"]` on a job
whose dictionary lacks the key raises `KeyError`; the raised path is `none`. -/
def getJobList : List Job → Option (List JobView)
  | [] => some []
  | j :: rest =>
    match j.time_started with
    | none => none
    | some t =>
      match getJobList rest with
      | none => none
      | some vs =>
        some ({ project := j.project.project, branch := j.project.vcs_branch,
                dc_file := j.dc_file, status := j.status, commit := j.commit,
                time_started := t } :: vs)

/-- Parsed JSON values as produced by `json.loads` (numbers restricted to the
integers exchanged by this protocol; Python keeps `bool` distinct from
`int`). -/
inductive JValue where
  | obj (kvs : List (String × JValue))
  | arr (xs : List JValue)
  | str (s : String)
  | num (n : Int)
  | bool (b : Bool)
  | null

/-- Python dict built by `json.loads`: on duplicate keys the last wins. -/
def jlookup (kvs : List (String × JValue)) (k : String) : Option JValue :=
  kvs.foldl (fun acc kv => if kv.1 = k then some kv.2 else acc) none

/-- Python `"id" in data` for a list `data`: some element equals the string
`"id"` (only string elements can). -/
def jarrHasId (xs : List JValue) : Bool :=
  xs.any (fun v => match v with | .str s => s = "id" | _ => false)

/-- Python `"id" in data` for a string `data`: substring test. -/
def strHasId (s : String) : Bool :=
  2 ≤ (s.splitOn "id").length

/-- Python `data["id"] == 1`: true for the int `1` and - since
`True == 1` holds in Python - for the boolean `True`. -/
def pyEqOne : JValue → Bool
  | .num n => n == 1
  | .bool b => b
  | _ => false

/-- The JSON reply of `_api_server_runtime` line 177: it echoes `data["id"]`
and carries the two counters and the job list. -/
structure StatusReply where
  id : JValue
  running_builds : Int
  scheduled_builds : Int
  jobs : List JobView

/-- Observable outcome of handling one received message: a reply is sent (the
loop continues), the server calls `websocket.close()` and returns, or an
uncaught exception ends the coroutine - the connection terminates with no
response either way. -/
inductive Outcome where
  | reply (r : StatusReply)
  | close
  | crash

/-- Boolean discriminator for the reply outcome. -/
def isReplyOutcome : Outcome → Bool
  | .reply _ => true
  | _ => false

/-- The per-message body of `_api_server_runtime` (lines 159-191), given the
counters and job list read from `_daemon_info`.  `none` is a message on which
`json.loads` raised (caught as `ValueError`: close).  A parsed dict without
`"id"` closes; `data["id"] == 1` replies (unless `getJobList` raises
`KeyError`, which is not caught); any other `id` closes.  Non-dict payloads
hit `"id" in data` / `data["id]"` with Python container semantics: lists and
strings not containing `"id"` close via the missing-key branch, the remaining
cases raise an uncaught `TypeError`. -/
def handleApiMessage (running scheduled : Int) (jobs : List Job) :
    Option JValue → Outcome
  | none => .close
  | some (.obj kvs) =>
    match jlookup kvs "id" with
    | none => .close
    | some v =>
      if pyEqOne v then
        match getJobList jobs with
        | some views => .reply ⟨v, running, scheduled, views⟩
        | none => .crash
      else .close
  | some (.arr xs) => if jarrHasId xs then .crash else .close
  | some (.str s) => if strHasId s then .crash else .close
  | some (.num _) => .crash
  | some (.bool _) => .crash
  | some .null => .crash

/-! ### Daemon settings (`loadDaemonSettings`, lines 487-512)

`configmanager.get_prop` is not part of the source under `src/`.
Modelled from the spec: the configuration collaborator is
`get(key) -> string | absent` (spec section 6), so it enters as a function
`String → Option String` with `none` for an absent key.  The default
constants `DAEMON_DEFAULT_INTERVAL`, `DAEMON_DEFAULT_MAX_CONTAINERS` and
`API_SERVER_DEFAULT_PORT` come from `dapsenv.general` (also outside `src/`)
and enter as the parameter record `DaemonDefaults`. -/

/-- The two exception classes distinguished by this code path. -/
inductive PyErr where
  | typeError
  | valueError
  deriving DecidableEq, Repr

/-- Tail of a Python integer-literal digit run: digits in which single
underscores may occur, but only *between* digits - an underscore must be
followed by a digit, so `1__0`, `1_` are invalid while `1_0` is valid. -/
def digitTailOk : List Char → Bool
  | [] => true
  | c :: rest =>
    if c = '_' then
      match rest with
      | [] => false
      | d :: rest2 => d.isDigit && digitTailOk rest2
    else c.isDigit && digitTailOk rest

/-- Decimal value of a digit run with optional grouping underscores:
`none` unless the run starts with a digit and every underscore sits between
digits; otherwise the underscores are dropped and the digits read in base
10. -/
def digitRunVal (cs : List Char) : Option Nat :=
  match cs with
  | [] => none
  | c :: rest =>
    if c.isDigit && digitTailOk rest then
      some ((cs.filter (fun x => x ≠ '_')).foldl
        (fun a d => a * 10 + (d.toNat - 48)) 0)
    else none

/-- Python `int(s)` on a string: surrounding whitespace is stripped, then an
optional sign directly followed by decimal digits with optional single
grouping underscores between digits (so `" 5 "`, `"1_0"`, `"-7"` parse while
`"abc"`, `""`, `"1__0"`, `"+ 5"` raise `ValueError`; non-ASCII digits are
not modelled - this configuration data is ASCII). -/
def pyIntParse (s : String) : Option Int :=
  let t := ((s.data.dropWhile (fun c => c.isWhitespace)).reverse.dropWhile
    (fun c => c.isWhitespace)).reverse
  match t with
  | '-' :: rest => (digitRunVal rest).map (fun n => -(n : Int))
  | '+' :: rest => (digitRunVal rest).map (fun n => (n : Int))
  | l => (digitRunVal l).map (fun n => (n : Int))

/-- Python `int(v)` applied to `get_prop`'s result: `int(None)` raises
`TypeError`; `int(s)` on a string that does not parse as an integer raises
`ValueError`. -/
def pyInt (v : Option String) : Except PyErr Int :=
  match v with
  | none => .error .typeError
  | some s =>
    match pyIntParse s with
    | some n => .ok n
    | none => .error .valueError

/-- Documented default values (from `dapsenv.general`, parameterized). -/
structure DaemonDefaults where
  interval : Int
  max_containers : Int
  api_server_port : Int
  deriving DecidableEq, Repr

/-- The settings fields assigned by `loadDaemonSettings`. -/
structure DaemonSettings where
  interval : Int
  max_containers : Int
  api_server : Option String
  api_server_port : Int
  deriving DecidableEq, Repr

/-- `try: ... int(get_prop(key)) except TypeError: default` - only
`TypeError` is caught; a `ValueError` propagates out of the method. -/
def coerceOrDefault (v : Except PyErr Int) (d : Int) : Except PyErr Int :=
  match v with
  | .ok n => .ok n
  | .error .typeError => .ok d
  | .error .valueError => .error .valueError

/-- `loadDaemonSettings` (lines 487-512), in source order:
`daemon_check_interval`, `daemon_max_containers`, the raw `api_server`
string, `api_server_port`; an uncaught exception at any step aborts the
whole method. -/
def loadDaemonSettings (dfl : DaemonDefaults) (get_prop : String → Option String) :
    Except PyErr DaemonSettings :=
  match coerceOrDefault (pyInt (get_prop "daemon_check_interval")) dfl.interval with
  | .error e => .error e
  | .ok interval =>
    match coerceOrDefault (pyInt (get_prop "daemon_max_containers")) dfl.max_containers with
    | .error e => .error e
    | .ok maxc =>
      match coerceOrDefault (pyInt (get_prop "api_server_port")) dfl.api_server_port with
      | .error e => .error e
      | .ok port =>
        .ok { interval := interval, max_containers := maxc,
              api_server := get_prop "api_server", api_server_port := port }

/-! ### Change detection (`_prepare_build_task`, lines 291-320)

Per project: the repository is force-pulled and `commit` is the hash the
revision-control collaborator returns (a parameter here).  When it differs
from `vcs_lastrev`, the project's `vcs_lastrev` is updated *first* (line 305,
so the deep copy stored in each new job already carries the new hash), the
new hash is persisted via the external `updateCommitHash` collaborator (no
state in this model), and one Queued job per `dc_file` is appended, each
incrementing `scheduled_builds`. -/

/-- The body of `_prepare_build_task`'s loop for one project. -/
def prepareProjectUpdate (commit : String) (p : ProjectInfo)
    (jobs : List Job) (scheduled : Int) : ProjectInfo × List Job × Int :=
  if p.vcs_lastrev ≠ commit then
    let p' := { p with vcs_lastrev := commit }
    (p', jobs ++ p'.dc_files.map (fun dc => mkJob p' dc commit),
     scheduled + (p'.dc_files.length : Int))
  else (p, jobs, scheduled)

/-! ### Build pipeline worker (`_process`, lines 322-448)

The container, the IRC bot and the filesystem are external collaborators;
what the worker does to them is reified into an ordered `Effect` list.  The
per-format result dictionary is modelled *after* the two unconditional
rewrites of lines 353-360 (`archive_name` popped into its own variable, the
`/tmp/doc_info.json` metadata - in particular the `dc_file` and `format`
entries read by both notification branches - merged in); the build
collaborator therefore enters as a function from the format to this merged
record.  Exactly one `int(time.time())` is evaluated per format iteration
(line 382 or line 410), parameterized as `times`. -/

/-- The merged per-format build result. -/
structure FormatResult where
  archive_name : String
  build_status : Bool
  build_log : String
  dapscmd : String
  dc_file : String
  format : String
  deriving DecidableEq, Repr

/-- Recipient of an IRC notification: a client from the project's
`notifications.irc` list, or the channel broadcast. -/
inductive NotifyTarget where
  | client (name : String)
  | channel
  deriving DecidableEq, Repr

/-- One externally visible action of the worker, in program order.
`createBuildInfo` records the data serialized into `/tmp/build_info.json`
(the result record plus the debug-mode munging of lines 362-369);
notification effects carry the fields interpolated into the message. -/
inductive Effect where
  | spawnContainer
  | prepareContainer (repodir : String)
  | createBuildInfo (res : FormatResult) (debug : Bool) (container_id : String)
  | tarAppendBuildInfo (archive : String)
  | gzipArchive (archive : String)
  | fetchArchive (remote : String) (localPath : String)
  | notifySuccess (t : NotifyTarget) (host dc fmt outputFile : String)
  | notifyFail (t : NotifyTarget) (host dc fmt logPath : String)
  | writeFailLog (path : String) (content : String)
  | killContainer
  deriving DecidableEq, Repr

/-- Flags and constants the worker reads: `self._debug`, `self._ircbot`
truthiness, the three IRC config booleans, the hostname, and the external
constants `LOG_DIR` / `BUILDS_DIR` from `dapsenv.general`. -/
structure WorkerConfig where
  debug : Bool
  ircbot : Bool
  inform_success : Bool
  inform_fail : Bool
  channel_messages : Bool
  hostname : String
  logDir : String
  buildsDir : String
  deriving DecidableEq, Repr

/-- The failure-log path of `_process` lines 406-411:
`"{}/build_fail_{}_{}_{}.log".format(LOG_DIR, result["dc_file"],
result["format"], int(time.time()))`. -/
def failLogPath (logDir dc fmt : String) (now : Nat) : String :=
  logDir ++ "/build_fail_" ++ dc ++ "_" ++ fmt ++ "_" ++ toString now ++ ".log"

/-- Success notifications (lines 387-404): sent only when the bot exists and
`irc_inform_build_success` is set - one message per configured client, plus
the channel when `irc_channel_messages` is set. -/
def successNotifs (cfg : WorkerConfig) (clients : List String)
    (dc fmt outputFile : String) : List Effect :=
  if cfg.ircbot && cfg.inform_success then
    clients.map (fun cl => Effect.notifySuccess (.client cl) cfg.hostname dc fmt outputFile)
    ++ (if cfg.channel_messages then
          [Effect.notifySuccess .channel cfg.hostname dc fmt outputFile] else [])
  else []

/-- Failure notifications (lines 416-433), analogous with
`irc_inform_build_fail`. -/
def failNotifs (cfg : WorkerConfig) (clients : List String)
    (dc fmt logPath : String) : List Effect :=
  if cfg.ircbot && cfg.inform_fail then
    clients.map (fun cl => Effect.notifyFail (.client cl) cfg.hostname dc fmt logPath)
    ++ (if cfg.channel_messages then
          [Effect.notifyFail .channel cfg.hostname dc fmt logPath] else [])
  else []

/-- One iteration of the `for f in build_formats` loop (lines 349-433),
branching on `result["build_status"]`. -/
def processFormat (cfg : WorkerConfig) (clients : List String) (cid : String)
    (now : Nat) (dc_file fmt : String) (res : FormatResult) : List Effect :=
  if res.build_status then
    [Effect.createBuildInfo res cfg.debug cid,
     Effect.tarAppendBuildInfo res.archive_name,
     Effect.gzipArchive res.archive_name,
     Effect.fetchArchive (res.archive_name ++ ".gz")
       (cfg.buildsDir ++ "/" ++ buildArchiveName now dc_file fmt)]
    ++ successNotifs cfg clients res.dc_file res.format (buildArchiveName now dc_file fmt)
  else
    [Effect.writeFailLog (failLogPath cfg.logDir res.dc_file res.format now) res.build_log]
    ++ failNotifs cfg clients res.dc_file res.format
         (failLogPath cfg.logDir res.dc_file res.format now)

/-- Line 347: `build_formats = ["html", "single_html", "pdf"]`. -/
def build_formats : List String := ["html", "single_html", "pdf"]

/-- The whole worker: spawn and prepare the container, run every format in
order, optionally kill the container; paired with the completion update the
worker finally applies to the shared state (the `finishUpdate` block of
lines 435-444, `workerFinish` in the transition system). -/
def processJob (cfg : WorkerConfig) (clients : List String) (cid : String)
    (times : String → Nat) (builds : String → FormatResult)
    (dc_file repodir : String) :
    List Effect × (List Job → Int → List Job × Int) :=
  ([Effect.spawnContainer, Effect.prepareContainer repodir]
    ++ build_formats.flatMap
        (fun f => processFormat cfg clients cid (times f) dc_file f (builds f))
    ++ (if cfg.debug then [] else [Effect.killContainer]),
   finishUpdate dc_file)

/-- Discriminator: is this effect a success notification? -/
def isSuccessNotify : Effect → Bool
  | .notifySuccess _ _ _ _ _ => true
  | _ => false

/-! ### Concrete sample data used by instances, witnesses and traces -/

/-- A sample project whose stored revision is `"c1"`. -/
def pS : ProjectInfo :=
  { project := "dapsenv", vcs_branch := "master", vcs_lastrev := "c1",
    vcs_repodir := "/tmp/repo", dc_files := ["DC-a"],
    irc_notifications := ["alice"] }

/-- Queued sample jobs. -/
def qa : Job := mkJob pS "DC-a" "c1"

/-- Second queued sample job. -/
def qb : Job := mkJob pS "DC-b" "c1"

/-- A sample job already Running (promoted at time 42). -/
def rc : Job := { mkJob pS "DC-c" "c1" with status := 1, time_started := some 42 }

/-- A queued job positioned after the Running one. -/
def qd : Job := mkJob pS "DC-d" "c1"

/-- The job the change detector enqueues mid-tick in the race trace. -/
def jobC : Job := mkJob pS "DC-c" "c2"

/-- The state reached by the race trace of `counter_invariant_violated`:
`running_builds` is `0` but the `DC-c` job carries status Running. -/
def badState3 : DaemonInfo :=
  { jobs := [qb, { jobC with status := 1, time_started := some 101 }],
    running_builds := 0, scheduled_builds := 1,
    sched := none, workers := [] }

/-- Sample worker configuration (debug off, all notifications on). -/
def cfgS : WorkerConfig :=
  { debug := false, ircbot := true, inform_success := true,
    inform_fail := true, channel_messages := true,
    hostname := "buildhost", logDir := "/var/log/dapsenv",
    buildsDir := "/home/user/builds" }

/-- Sample per-format results: the `pdf` build fails, the others succeed. -/
def buildsS : String → FormatResult := fun f =>
  { archive_name := "/tmp/archive.tar", build_status := !(f == "pdf"),
    build_log := "log of " ++ f, dapscmd := "daps", dc_file := "DC-a",
    format := f }

/-! ## Theorems -/

/-- Strings append on their character lists. -/
theorem string_data_append (s t : String) : (s ++ t).data = s.data ++ t.data := by
  cases s
  cases t
  rfl

/-- Dropping the `DC-` prefix with Python's `[3:]` slice. -/
theorem pySlice3_dc (rest : String) : pySlice3 ("DC-" ++ rest) = rest := by
  cases rest
  rfl

/-- C9: the persisted archive name is the unix timestamp, the build-control
file with its three-character `DC-` prefix removed, and the format with
underscores replaced by hyphens, joined by underscores with a `.tar.gz`
suffix; in particular unix time 1000000, `DC-mybook` and `single_html`
produce `1000000_mybook_single-html.tar.gz`. -/
theorem archive_naming :
    (∀ (now : Nat) (rest fmt : String),
        buildArchiveName now ("DC-" ++ rest) fmt
          = toString now ++ "_" ++ rest ++ "_" ++ replaceUnderscores fmt ++ ".tar.gz")
    ∧ buildArchiveName 1000000 "DC-mybook" "single_html"
        = "1000000_mybook_single-html.tar.gz" := by
  constructor
  · intro now rest fmt
    rw [buildArchiveName, pySlice3_dc]
  · rfl

/-- C10: the completion update decrements `running_builds` by exactly one
and removes at most one job - the first whose `dc_file` matches and whose
status is Running - leaving all other jobs and their order unchanged; when
no job matches, the sequence is unchanged while the counter is still
decremented. -/
theorem completion_frame (dc : String) (jobs : List Job) (running : Int) :
    (finishUpdate dc jobs running).2 = running - 1
    ∧ ((∃ pre j post,
          jobs = pre ++ j :: post
          ∧ (j.dc_file = dc ∧ j.status = 1)
          ∧ (∀ x ∈ pre, ¬(x.dc_file = dc ∧ x.status = 1))
          ∧ (finishUpdate dc jobs running).1 = pre ++ post)
       ∨ ((∀ x ∈ jobs, ¬(x.dc_file = dc ∧ x.status = 1))
          ∧ (finishUpdate dc jobs running).1 = jobs)) := by
  refine ⟨rfl, ?_⟩
  show (∃ pre j post, _) ∨ _
  induction jobs with
  | nil => exact Or.inr ⟨by simp, rfl⟩
  | cons j rest ih =>
    by_cases hm : j.dc_file = dc ∧ j.status = 1
    · refine Or.inl ⟨[], j, rest, rfl, hm, by simp, ?_⟩
      simp [finishUpdate, removeFirstRunning, hm]
    · rcases ih with ⟨pre, x, post, he, hx, hpre, hres⟩ | ⟨hall, hres⟩
      · refine Or.inl ⟨j :: pre, x, post, by rw [he]; rfl, hx, ?_, ?_⟩
        · intro y hy
          rcases List.mem_cons.mp hy with h | h
          · exact h ▸ hm
          · exact hpre y h
        · simpa [finishUpdate, removeFirstRunning, hm] using hres
      · refine Or.inr ⟨?_, ?_⟩
        · intro y hy
          rcases List.mem_cons.mp hy with h | h
          · exact h ▸ hm
          · exact hall y h
        · simpa [finishUpdate, removeFirstRunning, hm] using hres

/-- C10 witness: concrete evaluation - removing the worker's Running job from
`[qa, rc]` for `dc_file` `DC-c` decrements the counter from 5 to 4. -/
theorem completion_frame_witness :
    (finishUpdate "DC-c" [qa, rc] 5).2 = 4 :=
  (completion_frame "DC-c" [qa, rc] 5).1

/-- C7: change detection is idempotent for an unchanged revision - when the
commit hash equals the stored `vcs_lastrev` nothing is enqueued and nothing
changes, and running the detection a second time with the same hash (on the
project state the first run produced) enqueues zero additional jobs. -/
theorem change_detection_idempotent (commit : String) (p : ProjectInfo)
    (jobs : List Job) (scheduled : Int) :
    (p.vcs_lastrev = commit →
      prepareProjectUpdate commit p jobs scheduled = (p, jobs, scheduled))
    ∧ (prepareProjectUpdate commit
          (prepareProjectUpdate commit p jobs scheduled).1
          (prepareProjectUpdate commit p jobs scheduled).2.1
          (prepareProjectUpdate commit p jobs scheduled).2.2
        = prepareProjectUpdate commit p jobs scheduled) := by
  constructor
  · intro h
    simp [prepareProjectUpdate, h]
  · by_cases h : p.vcs_lastrev = commit
    · simp [prepareProjectUpdate, h]
    · simp [prepareProjectUpdate, h]

/-- C7 witness: with stored revision `"c1"` and observed commit `"c1"`, the
detection pass leaves the project and the queue untouched. -/
theorem change_detection_idempotent_witness :
    prepareProjectUpdate "c1" pS [] 0 = (pS, [], 0) :=
  (change_detection_idempotent "c1" pS [] 0).1 rfl

/-- The promotion loop promotes exactly the head-of-line run of Queued jobs,
capped by the remaining capacity, and rewrites nothing behind it. -/
theorem promoteLoop_spec (maxC now : Int) :
    ∀ (jobs : List Job) (r : Int),
      promoteLoop maxC now jobs r
        = ((jobs.take (min (queuedPrefixLen jobs) (maxC - r).toNat)).map (promoteJob now)
            ++ jobs.drop (min (queuedPrefixLen jobs) (maxC - r).toNat),
           min (queuedPrefixLen jobs) (maxC - r).toNat) := by
  intro jobs
  induction jobs with
  | nil => intro r; simp [promoteLoop, queuedPrefixLen]
  | cons j rest ih =>
    intro r
    by_cases hge : maxC ≤ r
    · have h0 : (maxC - r).toNat = 0 := by omega
      simp [promoteLoop, hge, h0]
    · by_cases hq : j.status = 0
      · have h1 : (maxC - r).toNat = (maxC - (r + 1)).toNat + 1 := by omega
        have hqp : queuedPrefixLen (j :: rest) = queuedPrefixLen rest + 1 := by
          simp [queuedPrefixLen, List.takeWhile_cons, hq]
        simp only [promoteLoop, if_neg hge, if_pos hq, ih (r + 1), hqp, h1,
          Nat.succ_min_succ, List.take_succ_cons, List.drop_succ_cons, List.map_cons]
        simp
      · have hqp : queuedPrefixLen (j :: rest) = 0 := by
          simp [queuedPrefixLen, List.takeWhile_cons, hq]
        simp [promoteLoop, hge, hq, hqp]

/-- Jobs within the promoted prefix are all Queued. -/
theorem take_queuedPrefix_status (jobs : List Job) :
    ∀ (k : Nat), k ≤ queuedPrefixLen jobs → ∀ j ∈ jobs.take k, j.status = 0 := by
  induction jobs with
  | nil => intro k hk j hj; simp at hj
  | cons a rest ih =>
    intro k hk j hj
    cases k with
    | zero => simp at hj
    | succ n =>
      by_cases hq : a.status = 0
      · have hqp : queuedPrefixLen (a :: rest) = queuedPrefixLen rest + 1 := by
          simp [queuedPrefixLen, List.takeWhile_cons, hq]
        rw [List.take_succ_cons] at hj
        rcases List.mem_cons.mp hj with h | h
        · exact h ▸ hq
        · rw [hqp] at hk
          exact ih n (by omega) j h
      · exfalso
        have hqp : queuedPrefixLen (a :: rest) = 0 := by
          simp [queuedPrefixLen, List.takeWhile_cons, hq]
        rw [hqp] at hk
        omega

/-- C1: one scheduler tick promotes exactly a contiguous prefix of Queued
jobs from the front - its length limited by the free capacity and by the
first non-Queued job - and touches nothing behind that prefix; every promoted
job was Queued; in particular, on `[Queued, Queued, Running, Queued]` with
free capacity at least 2 it promotes exactly the first two jobs and leaves
the trailing Queued job (after the Running one) untouched. -/
theorem scheduler_head_of_line :
    (∀ (maxC now running scheduled : Int) (jobs : List Job),
        jobManagerTick maxC now jobs running scheduled
          = ((jobs.take (tickLimit maxC running jobs)).map (promoteJob now)
              ++ jobs.drop (tickLimit maxC running jobs),
             running + (tickLimit maxC running jobs : Int),
             scheduled - (tickLimit maxC running jobs : Int)))
    ∧ (∀ (maxC running : Int) (jobs : List Job) (j : Job),
        j ∈ jobs.take (tickLimit maxC running jobs) → j.status = 0)
    ∧ jobManagerTick 10 500 [qa, qb, rc, qd] 1 3
        = ([{ qa with status := 1, time_started := some 500 },
            { qb with status := 1, time_started := some 500 }, rc, qd], 3, 1) := by
  refine ⟨?_, ?_, ?_⟩
  · intro maxC now running scheduled jobs
    by_cases h : running < maxC
    · simp [jobManagerTick, h, tickLimit, promoteLoop_spec]
    · have h0 : (maxC - running).toNat = 0 := by omega
      simp [jobManagerTick, h, tickLimit, h0]
  · intro maxC running jobs j hj
    exact take_queuedPrefix_status jobs (tickLimit maxC running jobs)
      (Nat.min_le_left _ _) j hj
  · decide

/-- C1 witness: the first job of the sample queue lies in the promoted prefix
and is indeed Queued, and the concrete tick evaluates as stated. -/
theorem scheduler_head_of_line_witness :
    qa.status = 0
    ∧ jobManagerTick 10 500 [qa, qb, rc, qd] 1 3
        = ([{ qa with status := 1, time_started := some 500 },
            { qb with status := 1, time_started := some 500 }, rc, qd], 3, 1) :=
  ⟨scheduler_head_of_line.2.1 10 1 [qa, qb, rc, qd] qa (by decide),
   scheduler_head_of_line.2.2⟩

/-- Every transition preserves the strengthened capacity invariant: the
shared counter is at most `maxC`, and while the scheduler is inside a tick
its thread-local counter dominates the shared one and stays at most
`maxC` (only the scheduler increments the shared counter; workers only
decrement it). -/
theorem running_bound_step {maxC : Int} {s t : DaemonInfo} (hst : Step maxC s t)
    (h1 : s.running_builds ≤ maxC)
    (h2 : ∀ c, s.sched = some c →
      s.running_builds ≤ c.localRunning ∧ c.localRunning ≤ maxC) :
    t.running_builds ≤ maxC
    ∧ ∀ c, t.sched = some c →
        t.running_builds ≤ c.localRunning ∧ c.localRunning ≤ maxC := by
  cases hst with
  | enqueue p dc commit => exact ⟨h1, h2⟩
  | tickStart h =>
    refine ⟨h1, ?_⟩
    intro c hc
    obtain rfl := Option.some.inj hc
    exact ⟨le_refl _, h1⟩
  | tickPromote c idx j rest now hc hp hcap hq hidx =>
    have hl := h2 c hc
    have hsl := hl.1
    refine ⟨?_, ?_⟩
    · show s.running_builds + 1 ≤ maxC
      omega
    · intro c' hc'
      obtain rfl := Option.some.inj hc'
      refine ⟨?_, ?_⟩
      · show s.running_builds + 1 ≤ c.localRunning + 1
        omega
      · show c.localRunning + 1 ≤ maxC
        omega
  | tickEnd c hc h =>
    refine ⟨h1, ?_⟩
    intro c' hc'
    exact absurd hc' (by simp)
  | workerRecord dc cid h => exact ⟨h1, h2⟩
  | workerFinish dc h =>
    refine ⟨?_, ?_⟩
    · show s.running_builds - 1 ≤ maxC
      omega
    · intro c hc
      have hl := h2 c hc
      have hsl := hl.1
      refine ⟨?_, hl.2⟩
      show s.running_builds - 1 ≤ c.localRunning
      omega

/-- C2: for every reachable daemon state (every interleaving of detector
enqueues, scheduler promotions and worker decrements/removals, at the
granularity of the lock-protected blocks), the `running_builds` counter never
exceeds the configured container maximum. -/
theorem running_builds_le_max (maxC : Int) (h0 : 0 ≤ maxC) (s : DaemonInfo)
    (hr : Reachable maxC s) : s.running_builds ≤ maxC := by
  suffices h : s.running_builds ≤ maxC
      ∧ ∀ c, s.sched = some c →
          s.running_builds ≤ c.localRunning ∧ c.localRunning ≤ maxC from h.1
  induction hr with
  | init =>
    refine ⟨h0, ?_⟩
    intro c hc
    exact absurd hc (by simp [initDaemonInfo])
  | step hr hst ih => exact running_bound_step hst ih.1 ih.2

/-- C2 witness: the initial daemon state is reachable with a configured
maximum of 2, and its running counter respects the bound. -/
theorem running_builds_le_max_witness : initDaemonInfo.running_builds ≤ 2 :=
  running_builds_le_max 2 (by decide) initDaemonInfo Reachable.init

/-- C3 fails on the code: with `max_containers = 2`, enqueue `DC-a` and
`DC-b`; the scheduler snapshots both and promotes `DC-a`; the `DC-a` worker
finishes (popping its job) and the detector enqueues `DC-c` while the
scheduler is still iterating its stale snapshot; the scheduler then promotes
snapshot entry `(1, DC-b)` - but index 1 of the *shared* list now addresses
the `DC-c` job, which gets marked Running while the spawned worker carries
`DC-b`; when that worker finishes it finds no Running `DC-b` job, so
`running_builds` drops to 0 while one job still has status Running.  The
resulting state is reachable and violates the counter equalities. -/
theorem counter_invariant_violated :
    Reachable 2 badState3
    ∧ ¬(badState3.scheduled_builds = (countQueued badState3.jobs : Int)
        ∧ badState3.running_builds = (countRunning badState3.jobs : Int)) := by
  constructor
  · have h0 : Reachable 2 initDaemonInfo := Reachable.init
    have h1 : Reachable 2
        { jobs := [qa], running_builds := 0, scheduled_builds := 1,
          sched := none, workers := [] } :=
      Reachable.step h0 (Step.enqueue initDaemonInfo pS "DC-a" "c1")
    have h2 : Reachable 2
        { jobs := [qa, qb], running_builds := 0, scheduled_builds := 2,
          sched := none, workers := [] } :=
      Reachable.step h1 (Step.enqueue _ pS "DC-b" "c1")
    have h3 : Reachable 2
        { jobs := [qa, qb], running_builds := 0, scheduled_builds := 2,
          sched := some ⟨[(0, qa), (1, qb)], 0⟩, workers := [] } :=
      Reachable.step h2 (Step.tickStart _ rfl)
    have h4 : Reachable 2
        { jobs := [{ qa with status := 1, time_started := some 100 }, qb],
          running_builds := 1, scheduled_builds := 1,
          sched := some ⟨[(1, qb)], 1⟩, workers := ["DC-a"] } :=
      Reachable.step h3 (Step.tickPromote _ ⟨[(0, qa), (1, qb)], 0⟩ 0 qa
        [(1, qb)] 100 rfl rfl (by decide) rfl (by decide))
    have h5 : Reachable 2
        { jobs := [qb], running_builds := 0, scheduled_builds := 1,
          sched := some ⟨[(1, qb)], 1⟩, workers := [] } :=
      Reachable.step h4 (Step.workerFinish _ "DC-a" (by decide))
    have h6 : Reachable 2
        { jobs := [qb, jobC], running_builds := 0, scheduled_builds := 2,
          sched := some ⟨[(1, qb)], 1⟩, workers := [] } :=
      Reachable.step h5 (Step.enqueue _ pS "DC-c" "c2")
    have h7 : Reachable 2
        { jobs := [qb, { jobC with status := 1, time_started := some 101 }],
          running_builds := 1, scheduled_builds := 1,
          sched := some ⟨[], 2⟩, workers := ["DC-b"] } :=
      Reachable.step h6 (Step.tickPromote _ ⟨[(1, qb)], 1⟩ 1 qb [] 101
        rfl rfl (by decide) rfl (by decide))
    have h8 : Reachable 2
        { jobs := [qb, { jobC with status := 1, time_started := some 101 }],
          running_builds := 1, scheduled_builds := 1,
          sched := none, workers := ["DC-b"] } :=
      Reachable.step h7 (Step.tickEnd _ ⟨[], 2⟩ rfl (Or.inl rfl))
    exact Reachable.step h8 (Step.workerFinish _ "DC-b" (by decide))
  · decide

/-- C4 fails on the code: `_prepare_build_task` appends job dictionaries
without a `"time_started"` key, and `getJobList` reads
`job["time_started"]` unconditionally, so as soon as any Queued job is in
the sequence the lookup raises `KeyError`; the exception is not caught by
the `except ValueError` handler of `_api_server_runtime`, so a `{"id": 1}`
request gets no reply at all instead of the documented job list. -/
theorem getJobList_keyerror_on_queued :
    getJobList [mkJob pS "DC-a" "c1"] = none
    ∧ handleApiMessage 0 1 [mkJob pS "DC-a" "c1"]
        (some (.obj [("id", .num 1)])) = .crash :=
  ⟨rfl, rfl⟩

/-- C5 fails as stated: a *present but non-numeric* value raises
`ValueError`, which `loadDaemonSettings` does not catch (it catches only
`TypeError`), so loading aborts instead of falling back. -/
theorem loadDaemonSettings_nonnumeric_fatal :
    loadDaemonSettings ⟨300, 5, 5555⟩
      (fun k => if k = "daemon_check_interval" then some "abc" else none)
      = .error .valueError := by
  rfl

/-- C5 as amended: when an expected numeric setting is *absent*, coercion
raises `TypeError`, which is caught, and the documented default is used -
with all three numeric settings absent, loading succeeds with exactly the
default values; but when a numeric setting holds a non-numeric string, the
resulting `ValueError` is uncaught and loading aborts. -/
theorem coerceOrDefault_error (v : Except PyErr Int) (d : Int) (e : PyErr)
    (h : coerceOrDefault v d = .error e) : e = PyErr.valueError := by
  cases v with
  | ok n => simp [coerceOrDefault] at h
  | error e' =>
    cases e' with
    | typeError => simp [coerceOrDefault] at h
    | valueError =>
      simp [coerceOrDefault] at h
      exact h.symm

theorem coerceOrDefault_ok (v : Except PyErr Int) (d : Int)
    (h : v ≠ .error .valueError) : ∃ n, coerceOrDefault v d = .ok n := by
  cases v with
  | ok n => exact ⟨n, rfl⟩
  | error e =>
    cases e with
    | typeError => exact ⟨d, rfl⟩
    | valueError => exact absurd rfl h

/-- C5 as amended, per setting: whenever loading completes, every *absent*
numeric setting (its coercion raised `TypeError`, which is caught) came out
as its documented default, independently of the other settings; loading
completes whenever no numeric setting holds a non-numeric value; but when
any numeric setting holds a non-numeric string, the resulting `ValueError`
is uncaught and loading aborts. -/
theorem loadDaemonSettings_defaults (dfl : DaemonDefaults)
    (cfg : String → Option String) :
    (∀ st, loadDaemonSettings dfl cfg = .ok st →
      (cfg "daemon_check_interval" = none → st.interval = dfl.interval)
      ∧ (cfg "daemon_max_containers" = none → st.max_containers = dfl.max_containers)
      ∧ (cfg "api_server_port" = none → st.api_server_port = dfl.api_server_port))
    ∧ ((pyInt (cfg "daemon_check_interval") ≠ .error .valueError
        ∧ pyInt (cfg "daemon_max_containers") ≠ .error .valueError
        ∧ pyInt (cfg "api_server_port") ≠ .error .valueError) →
       ∃ st, loadDaemonSettings dfl cfg = .ok st)
    ∧ ((pyInt (cfg "daemon_check_interval") = .error .valueError
        ∨ pyInt (cfg "daemon_max_containers") = .error .valueError
        ∨ pyInt (cfg "api_server_port") = .error .valueError) →
       loadDaemonSettings dfl cfg = .error .valueError) := by
  refine ⟨?_, ?_, ?_⟩
  · intro st hst
    rcases hc1 : coerceOrDefault (pyInt (cfg "daemon_check_interval")) dfl.interval
      with e1 | n1
    · simp [loadDaemonSettings, hc1] at hst
    · rcases hc2 : coerceOrDefault (pyInt (cfg "daemon_max_containers")) dfl.max_containers
        with e2 | n2
      · simp [loadDaemonSettings, hc1, hc2] at hst
      · rcases hc3 : coerceOrDefault (pyInt (cfg "api_server_port")) dfl.api_server_port
          with e3 | n3
        · simp [loadDaemonSettings, hc1, hc2, hc3] at hst
        · have heq : loadDaemonSettings dfl cfg
              = .ok (DaemonSettings.mk n1 n2 (cfg "api_server") n3) := by
            simp [loadDaemonSettings, hc1, hc2, hc3]
          rw [heq] at hst
          obtain rfl := (Except.ok.inj hst).symm
          refine ⟨?_, ?_, ?_⟩
          · intro h
            rw [h] at hc1
            exact (Except.ok.inj hc1).symm
          · intro h
            rw [h] at hc2
            exact (Except.ok.inj hc2).symm
          · intro h
            rw [h] at hc3
            exact (Except.ok.inj hc3).symm
  · intro h
    obtain ⟨n1, hc1⟩ := coerceOrDefault_ok _ dfl.interval h.1
    obtain ⟨n2, hc2⟩ := coerceOrDefault_ok _ dfl.max_containers h.2.1
    obtain ⟨n3, hc3⟩ := coerceOrDefault_ok _ dfl.api_server_port h.2.2
    exact ⟨DaemonSettings.mk n1 n2 (cfg "api_server") n3,
      by simp [loadDaemonSettings, hc1, hc2, hc3]⟩
  · intro h
    rcases hc1 : coerceOrDefault (pyInt (cfg "daemon_check_interval")) dfl.interval
      with e1 | n1
    · simp [loadDaemonSettings, hc1, coerceOrDefault_error _ _ _ hc1]
    · rcases hc2 : coerceOrDefault (pyInt (cfg "daemon_max_containers")) dfl.max_containers
        with e2 | n2
      · simp [loadDaemonSettings, hc1, hc2, coerceOrDefault_error _ _ _ hc2]
      · rcases hc3 : coerceOrDefault (pyInt (cfg "api_server_port")) dfl.api_server_port
          with e3 | n3
        · simp [loadDaemonSettings, hc1, hc2, hc3, coerceOrDefault_error _ _ _ hc3]
        · exfalso
          rcases h with h | h | h
          · rw [h] at hc1
            simp [coerceOrDefault] at hc1
          · rw [h] at hc2
            simp [coerceOrDefault] at hc2
          · rw [h] at hc3
            simp [coerceOrDefault] at hc3

/-- C5 witness: the check interval absent while `daemon_max_containers`
holds the numeric string `"7"` - loading completes and the absent interval
came out as its default, per the theorem applied at this configuration. -/
theorem loadDaemonSettings_defaults_witness :
    loadDaemonSettings ⟨300, 5, 5555⟩
        (fun k => if k = "daemon_max_containers" then some "7" else none)
      = .ok { interval := 300, max_containers := 7,
              api_server := none, api_server_port := 5555 }
    ∧ ({ interval := 300, max_containers := 7, api_server := none,
         api_server_port := 5555 } : DaemonSettings).interval = 300 :=
  ⟨rfl,
   ((loadDaemonSettings_defaults ⟨300, 5, 5555⟩
        (fun k => if k = "daemon_max_containers" then some "7" else none)).1
      { interval := 300, max_containers := 7, api_server := none,
        api_server_port := 5555 }
      rfl).1 (by decide)⟩

/-- C6 fails as stated: the message `{"id": true}` carries an id other than
1, yet the server *replies* instead of closing, because Python evaluates
`True == 1` to `True` in the `data["id"] == 1` test. -/
theorem api_replies_to_bool_id :
    handleApiMessage 0 0 [] (some (.obj [("id", .bool true)]))
      = .reply ⟨.bool true, 0, 0, []⟩
    ∧ handleApiMessage 0 0 [] (some (.obj [("id", .bool true)])) ≠ .close :=
  ⟨rfl, fun h => Outcome.noConfusion h⟩

/-- C6 as amended: a message that fails to parse, a parsed object lacking
`"id"`, or an id that is not equal to 1 under Python equality (the integer
1 or the boolean `true`) gets no response - the explicit close; and a reply
is only ever sent for an object whose `"id"` entry equals 1 in that sense.
(Non-object payloads terminate the coroutine with an uncaught `TypeError` -
also no response.) -/
theorem api_request_handling (running scheduled : Int) (jobs : List Job) :
    (handleApiMessage running scheduled jobs none = .close)
    ∧ (∀ kvs, jlookup kvs "id" = none →
        handleApiMessage running scheduled jobs (some (.obj kvs)) = .close)
    ∧ (∀ kvs v, jlookup kvs "id" = some v → pyEqOne v = false →
        handleApiMessage running scheduled jobs (some (.obj kvs)) = .close)
    ∧ (∀ msg, isReplyOutcome (handleApiMessage running scheduled jobs msg) = true →
        ∃ kvs v, msg = some (.obj kvs) ∧ jlookup kvs "id" = some v
          ∧ pyEqOne v = true) := by
  refine ⟨rfl, ?_, ?_, ?_⟩
  · intro kvs h
    simp [handleApiMessage, h]
  · intro kvs v h hv
    simp [handleApiMessage, h, hv]
  · intro msg h
    cases msg with
    | none => simp [handleApiMessage, isReplyOutcome] at h
    | some v =>
      cases v with
      | obj kvs =>
        rcases hl : jlookup kvs "id" with _ | v
        · simp [handleApiMessage, hl, isReplyOutcome] at h
        · by_cases hp : pyEqOne v = true
          · exact ⟨kvs, v, rfl, hl, hp⟩
          · simp [handleApiMessage, isReplyOutcome, hl, hp] at h
      | arr xs =>
        cases ha : jarrHasId xs <;>
          simp [handleApiMessage, isReplyOutcome, ha] at h
      | str s =>
        cases ha : strHasId s <;>
          simp [handleApiMessage, isReplyOutcome, ha] at h
      | num n => simp [handleApiMessage, isReplyOutcome] at h
      | bool b => simp [handleApiMessage, isReplyOutcome] at h
      | null => simp [handleApiMessage, isReplyOutcome] at h

/-- C6 witness: the message `{"id": 5}` is explicitly closed with no
response. -/
theorem api_request_handling_witness :
    handleApiMessage 0 0 [] (some (.obj [("id", JValue.num 5)])) = .close :=
  (api_request_handling 0 0 []).2.2.1 [("id", JValue.num 5)] (JValue.num 5) rfl rfl

theorem failNotifs_not_success (cfg : WorkerConfig) (clients : List String)
    (dc fmt lp : String) :
    ∀ e ∈ failNotifs cfg clients dc fmt lp, isSuccessNotify e = false := by
  intro e he
  unfold failNotifs at he
  split at he
  · rcases List.mem_append.mp he with h | h
    · obtain ⟨cl, hcl, rfl⟩ := List.mem_map.mp h
      rfl
    · split at h
      · obtain rfl := List.mem_singleton.mp h
        rfl
      · simp at h
  · simp at he

/-- C8: when a format's build reports `build_status = false`, the worker
writes the raw build log to
`{logDir}/build_fail_{dcFile}_{format}_{unixTimestamp}.log`, emits no
success notification in that iteration, still produces every format's
effects for the whole ordered set `["html", "single_html", "pdf"]`, and
finally applies the completion update that decrements the running counter
and removes the job. -/
theorem format_failure_recovery
    (cfg : WorkerConfig) (clients : List String) (cid : String)
    (times : String → Nat) (builds : String → FormatResult)
    (dc repodir f : String)
    (hf : f ∈ build_formats)
    (hfail : (builds f).build_status = false) :
    (Effect.writeFailLog
        (failLogPath cfg.logDir (builds f).dc_file (builds f).format (times f))
        (builds f).build_log
      ∈ processFormat cfg clients cid (times f) dc f (builds f))
    ∧ (∀ e ∈ processFormat cfg clients cid (times f) dc f (builds f),
        isSuccessNotify e = false)
    ∧ (∀ g ∈ build_formats,
        (if (builds g).build_status then
          Effect.fetchArchive ((builds g).archive_name ++ ".gz")
            (cfg.buildsDir ++ "/" ++ buildArchiveName (times g) dc g)
         else
          Effect.writeFailLog
            (failLogPath cfg.logDir (builds g).dc_file (builds g).format (times g))
            (builds g).build_log)
          ∈ (processJob cfg clients cid times builds dc repodir).1)
    ∧ (processJob cfg clients cid times builds dc repodir).2 = finishUpdate dc
    ∧ (∀ (jobs : List Job) (running : Int),
        (finishUpdate dc jobs running).2 = running - 1) := by
  refine ⟨?_, ?_, ?_, rfl, fun jobs running => rfl⟩
  · simp [processFormat, hfail]
  · intro e he
    rw [processFormat, if_neg (by simp [hfail])] at he
    rcases List.mem_cons.mp he with h | h
    · rw [h]
      rfl
    · exact failNotifs_not_success cfg clients _ _ _ e h
  · intro g hg
    have hmem : (if (builds g).build_status then
          Effect.fetchArchive ((builds g).archive_name ++ ".gz")
            (cfg.buildsDir ++ "/" ++ buildArchiveName (times g) dc g)
         else
          Effect.writeFailLog
            (failLogPath cfg.logDir (builds g).dc_file (builds g).format (times g))
            (builds g).build_log)
        ∈ processFormat cfg clients cid (times g) dc g (builds g) := by
      cases hs : (builds g).build_status
      · simp [processFormat, hs]
      · simp [processFormat, hs]
    refine List.mem_append.mpr (Or.inl (List.mem_append.mpr (Or.inr ?_)))
    exact List.mem_flatMap.mpr ⟨g, hg, hmem⟩

/-- C8 witness: with the sample configuration and the `pdf` build failing,
the failure-log effect for `pdf` is among that iteration's effects. -/
theorem format_failure_recovery_witness :
    Effect.writeFailLog
        (failLogPath cfgS.logDir (buildsS "pdf").dc_file (buildsS "pdf").format 1000000)
        (buildsS "pdf").build_log
      ∈ processFormat cfgS ["alice"] "cid1" 1000000 "DC-a" "pdf" (buildsS "pdf") :=
  (format_failure_recovery cfgS ["alice"] "cid1" (fun _ => 1000000) buildsS
    "DC-a" "/tmp/repo" "pdf" (by decide) rfl).1

end Dapsenv
